import Mathlib

/-!
Verification development for the item-fulfillment store (`src/app.js`).

The `FulfillmentStore` class is shallowly embedded as pure functions over an
explicit `Store` state.  JavaScript in-place mutation of the record found by
`Array.prototype.find` is modelled by rewriting the first list element that
matches the predicate (`updateFirst`).  Platform primitives are modelled as
follows:

* `crypto.subtle.digest('SHA-256', _)` (used by `hashPassword`): the whole
  development is parameterised by an arbitrary deterministic
  `hash : String → String`; no theorem below depends on any property of the
  digest beyond determinism, which is what the source relies on.
* `localStorage`: a `Store.storage : Option (List Fulfillment)` field holding
  the last collection written by `saveToStorage` (`none` = key absent).
* subscriber callbacks (`notify`): a log `Store.notifications` of the record
  lists that were broadcast, in order.
* `Date` / `Math.random` / timestamps: passed in as explicit arguments.
* `JSON.parse` (used by `loadFromStorage`): modelled by `jsonParse` below, a
  parser for a JSON fragment that in particular rejects malformed input the
  way `JSON.parse` throws `SyntaxError`.
-/

/-- One entry of the three-stage timeline (`app.js` lines 53-75). -/
structure Stage where
  stage : String
  title : String
  description : String
  timestamp : Option String
  completed : Bool
deriving Repr, DecidableEq

/-- A fulfillment record as built by `createFulfillment` (`app.js` lines 42-76). -/
structure Fulfillment where
  id : String
  itemName : String
  personA : String
  personB : String
  personC : String
  status : String
  qrCodeUsed : Bool
  passwordHash : String
  passwordUsed : Bool
  createdAt : String
  timeline : List Stage
deriving Repr, DecidableEq

/-- The observable state of a `FulfillmentStore` instance: the in-memory
collection, the `localStorage` cell, and the log of subscriber notifications. -/
structure Store where
  fulfillments : List Fulfillment
  storage : Option (List Fulfillment)
  notifications : List (List Fulfillment)
deriving Repr, DecidableEq

/-- The creation form data passed to `createFulfillment`. -/
structure CreateData where
  itemName : String
  personA : String
  personB : String
  personC : String
deriving Repr, DecidableEq

/-- The discriminated result returned by the checkpoint operations
(`success` flag, message, optional record). -/
structure OpResult where
  success : Bool
  message : String
  fulfillment : Option Fulfillment
deriving Repr, DecidableEq

/-- Rewrite the first element satisfying `p` with `g`; the rest is untouched.
This models the JavaScript pattern `const x = xs.find(p); if (x) mutate(x)`. -/
def updateFirst (p : α → Bool) (g : α → α) : List α → List α
  | [] => []
  | x :: xs => if p x then g x :: xs else x :: updateFirst p g xs

/-- Model of `saveToStorage` (`app.js` lines 13-15): write the whole collection
to the storage cell. -/
def saveToStorage (s : Store) : Store :=
  { s with storage := some s.fulfillments }

/-- Model of `notify` (`app.js` lines 21-23): broadcast the current collection
to all subscribers. -/
def notify (s : Store) : Store :=
  { s with notifications := s.notifications ++ [s.fulfillments] }

/-- Model of `generatePassword` (`app.js` lines 33-36):
`Math.floor(100000 + Math.random() * 900000).toString()`.  Since `100000` is
an integer the floor distributes, so the result is
`(100000 + floor(Math.random() * 900000)).toString()`; the argument
`randFloor` stands for `floor(Math.random() * 900000)`, a natural number that
is `< 900000` because `Math.random() < 1`. -/
def generatePassword (randFloor : Nat) : String :=
  Nat.repr (100000 + randFloor)

/-- Mark a timeline stage completed at `now`, exactly as the source does:
`timeline.find(t => t.stage === name)` followed by in-place mutation of the
found entry, a no-op when no entry matches. -/
def markStage (name : String) (now : String) (tl : List Stage) : List Stage :=
  updateFirst (fun t => t.stage == name) (fun t => { t with completed := true, timestamp := some now }) tl

/-- Base-36 digit characters `0-9` then `a-z`, as produced by the JavaScript
`Number.prototype.toString(36)`. -/
def base36DigitChar (d : Nat) : Char :=
  if d < 10 then Char.ofNat (48 + d) else Char.ofNat (87 + d)

/-- Base-36 representation of a natural number, least significant digit last,
modelling `n.toString(36)` for a natural `n` (such as `Date.now()`).  The
`fuel` argument only forces structural termination; `natToBase36` supplies
`n + 1`, which always suffices because `n / 36 < n` for `n ≥ 36`. -/
def natToBase36Aux (fuel : Nat) (n : Nat) (acc : List Char) : List Char :=
  match fuel with
  | 0 => acc
  | fuel + 1 =>
    if n < 36 then base36DigitChar n :: acc
    else natToBase36Aux fuel (n / 36) (base36DigitChar (n % 36) :: acc)

/-- Model of `n.toString(36)` for naturals. -/
def natToBase36 (n : Nat) : String :=
  String.mk (natToBase36Aux (n + 1) n [])

/-- Model of the JavaScript `String.prototype.toUpperCase` on one character,
for the ASCII range (every character the store ever feeds it is ASCII). -/
def jsUpperChar (c : Char) : Char :=
  if 97 ≤ c.toNat ∧ c.toNat ≤ 122 then Char.ofNat (c.toNat - 32) else c

/-- Model of `String.prototype.toUpperCase` (ASCII range). -/
def jsToUpper (s : String) : String :=
  String.mk (s.data.map jsUpperChar)

/-- JavaScript whitespace recognised by `String.prototype.trim`. -/
def isJsWs (c : Char) : Bool :=
  c.toNat == 32 || c.toNat == 9 || c.toNat == 10 || c.toNat == 13 ||
  c.toNat == 11 || c.toNat == 12 || c.toNat == 160 ||
  c.toNat == 0x2028 || c.toNat == 0x2029 || c.toNat == 0xfeff

/-- Model of `String.prototype.trim`: drop leading and trailing whitespace. -/
def jsTrim (s : String) : String :=
  String.mk (((s.data.dropWhile isJsWs).reverse.dropWhile isJsWs).reverse)

/-- Model of `generateId` (`app.js` lines 184-186):
`'FUL-' + Date.now().toString(36).toUpperCase() + '-' +
Math.random().toString(36).substr(2, 5).toUpperCase()`.
`t` stands for `Date.now()` and `rnd` for the five base-36 fraction digits
`Math.random().toString(36).substr(2, 5)` (lowercase alphanumerics). -/
def generateId (t : Nat) (rnd : String) : String :=
  "FUL-" ++ jsToUpper (natToBase36 t) ++ "-" ++ jsToUpper rnd

/-- Model of `createFulfillment` (`app.js` lines 38-82).  Explicit arguments
stand for the environment reads: `hash` for SHA-256, `idTime`/`idRnd` for the
two sources of `generateId`, `randFloor` for the secret draw, and
`nowA`/`nowB` for the two `new Date().toISOString()` calls (lines 52 and 58;
the two unfilled stages are created with `timestamp: null`).  Returns the new
record, the plaintext password, and the updated store. -/
def createFulfillment (hash : String → String) (s : Store) (data : CreateData)
    (idTime : Nat) (idRnd : String) (randFloor : Nat) (nowA nowB : String) :
    Fulfillment × String × Store :=
  let password := generatePassword randFloor
  let passwordHash := hash password
  let fulfillment : Fulfillment :=
    { id := generateId idTime idRnd
      itemName := data.itemName
      personA := data.personA
      personB := data.personB
      personC := data.personC
      status := "pending"
      qrCodeUsed := false
      passwordHash := passwordHash
      passwordUsed := false
      createdAt := nowA
      timeline :=
        [ { stage := "created", title := "Fulfillment Created",
            description := data.personA ++ " initiated the transfer",
            timestamp := some nowB, completed := true },
          { stage := "dropped-off", title := "Item Dropped Off",
            description := data.personA ++ " drops off with " ++ data.personB,
            timestamp := none, completed := false },
          { stage := "collected", title := "Item Collected",
            description := data.personC ++ " collects from " ++ data.personB,
            timestamp := none, completed := false } ] }
  (fulfillment, password,
    notify (saveToStorage { s with fulfillments := fulfillment :: s.fulfillments }))

/-- The in-place mutation `updateStatusViaQR` performs on the found record
(`app.js` lines 98-106). -/
def dropOffMut (now : String) (f : Fulfillment) : Fulfillment :=
  { f with status := "in-transit", qrCodeUsed := true,
           timeline := markStage "dropped-off" now f.timeline }

/-- Model of `updateStatusViaQR` (`app.js` lines 84-111), the drop-off
checkpoint (`confirmDropOff` in the spec).  `now` stands for
`new Date().toISOString()`. -/
def updateStatusViaQR (s : Store) (id : String) (now : String) : OpResult × Store :=
  match s.fulfillments.find? (fun f => f.id == id) with
  | none => ({ success := false, message := "Fulfillment not found", fulfillment := none }, s)
  | some f =>
    if f.qrCodeUsed then
      ({ success := false, message := "QR code has already been used", fulfillment := none }, s)
    else if f.status != "pending" then
      ({ success := false, message := "Fulfillment is not in pending status", fulfillment := none }, s)
    else
      ({ success := true, message := "Item receipt confirmed!",
         fulfillment := some (dropOffMut now f) },
        notify (saveToStorage
          { s with fulfillments := updateFirst (fun f => f.id == id) (dropOffMut now) s.fulfillments }))

/-- The in-place mutation `validateAndCollect` performs on the found record
(`app.js` lines 134-142). -/
def collectMut (now : String) (f : Fulfillment) : Fulfillment :=
  { f with status := "completed", passwordUsed := true,
           timeline := markStage "collected" now f.timeline }

/-- Model of `validateAndCollect` (`app.js` lines 113-147), the collection
checkpoint (`confirmCollection` in the spec). -/
def validateAndCollect (hash : String → String) (s : Store) (id password : String)
    (now : String) : OpResult × Store :=
  match s.fulfillments.find? (fun f => f.id == id) with
  | none => ({ success := false, message := "Fulfillment not found", fulfillment := none }, s)
  | some f =>
    if f.passwordUsed then
      ({ success := false, message := "Password has already been used", fulfillment := none }, s)
    else if f.status != "in-transit" then
      ({ success := false, message := "Item has not been dropped off yet", fulfillment := none }, s)
    else if hash password != f.passwordHash then
      ({ success := false, message := "Incorrect password", fulfillment := none }, s)
    else
      ({ success := true, message := "Item collected successfully!",
         fulfillment := some (collectMut now f) },
        notify (saveToStorage
          { s with fulfillments := updateFirst (fun f => f.id == id) (collectMut now) s.fulfillments }))

/-- The in-place mutation `updateStatus` performs on the found record
(`app.js` lines 153-168). -/
def advanceMut (newStatus now : String) (f : Fulfillment) : Fulfillment :=
  { f with status := newStatus,
           timeline :=
             if newStatus == "in-transit" then markStage "dropped-off" now f.timeline
             else if newStatus == "completed" then markStage "collected" now f.timeline
             else f.timeline }

/-- Model of `updateStatus` (`app.js` lines 149-172), the unchecked
administrative override (`advanceStatusUnchecked` in the spec).  Returns only
the new store; the source returns `undefined` in every branch. -/
def updateStatus (s : Store) (id newStatus now : String) : Store :=
  match s.fulfillments.find? (fun f => f.id == id) with
  | none => s
  | some _ =>
    notify (saveToStorage
      { s with fulfillments :=
          updateFirst (fun f => f.id == id) (advanceMut newStatus now) s.fulfillments })

/-- Model of `deleteFulfillment` (`app.js` lines 174-178). -/
def deleteFulfillment (s : Store) (id : String) : Store :=
  notify (saveToStorage
    { s with fulfillments := s.fulfillments.filter (fun f => f.id != id) })

/-- The state of a store constructed over an empty `localStorage`
(the constructor loads `[]` when the key is absent, `app.js` lines 3-6, 8-11). -/
def initialStore : Store :=
  { fulfillments := [], storage := none, notifications := [] }

/-- JSON values, for modelling what `JSON.parse` can return. -/
inductive Json where
  | null
  | bool (b : Bool)
  | num (n : Int)
  | str (s : String)
  | arr (elems : List Json)
  | obj (fields : List (String × Json))

/-- Whitespace skipped between JSON tokens. -/
def skipWsJson : List Char → List Char :=
  List.dropWhile (fun c => c == ' ' || c == '\t' || c == '\n' || c == '\r')

/-- Consume an expected literal character sequence. -/
def dropLit : List Char → List Char → Option (List Char)
  | [], cs => some cs
  | l :: ls, c :: cs => if c == l then dropLit ls cs else none
  | _ :: _, [] => none

/-- Decimal digit characters to a natural number. -/
def digitsToNat (ds : List Char) : Nat :=
  ds.foldl (fun a c => a * 10 + (c.toNat - 48)) 0

/-- Parse an unsigned JSON integer (the modelled fragment has no fractions or
exponents). -/
def parseNatNum (cs : List Char) : Option (Nat × List Char) :=
  let ds := cs.takeWhile Char.isDigit
  if ds.isEmpty then none else some (digitsToNat ds, cs.drop ds.length)

/-- Parse the body of a JSON string literal after the opening quote (the
modelled fragment has no escape sequences). -/
def parseStrBody (cs : List Char) : Option (String × List Char) :=
  let body := cs.takeWhile (fun c => !(c == '"' || c == '\\'))
  match cs.drop body.length with
  | '"' :: rest => some (String.mk body, rest)
  | _ => none

mutual

/-- Parse one JSON value; `none` models a `SyntaxError` thrown by
`JSON.parse`.  Fuel-indexed; `jsonParse` supplies ample fuel. -/
def parseVal : Nat → List Char → Option (Json × List Char)
  | 0, _ => none
  | fuel+1, cs =>
    match skipWsJson cs with
    | [] => none
    | c :: rest =>
      if c == 'n' then (dropLit ['u','l','l'] rest).map (fun r => (Json.null, r))
      else if c == 't' then (dropLit ['r','u','e'] rest).map (fun r => (Json.bool true, r))
      else if c == 'f' then (dropLit ['a','l','s','e'] rest).map (fun r => (Json.bool false, r))
      else if c == '"' then (parseStrBody rest).map (fun p => (Json.str p.1, p.2))
      else if c == '-' then
        match parseNatNum rest with
        | some (n, r) => some (Json.num (-(n : Int)), r)
        | none => none
      else if c.isDigit then
        match parseNatNum (c :: rest) with
        | some (n, r) => some (Json.num (n : Int), r)
        | none => none
      else if c == '[' then
        match skipWsJson rest with
        | ']' :: r => some (Json.arr [], r)
        | _ => (parseArrayItems fuel (skipWsJson rest)).map (fun p => (Json.arr p.1, p.2))
      else if c == '\x7b' then
        match skipWsJson rest with
        | '\x7d' :: r => some (Json.obj [], r)
        | _ => (parseObjItems fuel (skipWsJson rest)).map (fun p => (Json.obj p.1, p.2))
      else none

/-- Parse the comma-separated items of a non-empty JSON array. -/
def parseArrayItems : Nat → List Char → Option (List Json × List Char)
  | 0, _ => none
  | fuel+1, cs =>
    match parseVal fuel cs with
    | none => none
    | some (v, rest) =>
      match skipWsJson rest with
      | ',' :: r => (parseArrayItems fuel r).map (fun p => (v :: p.1, p.2))
      | ']' :: r => some ([v], r)
      | _ => none

/-- Parse the comma-separated members of a non-empty JSON object. -/
def parseObjItems : Nat → List Char → Option (List (String × Json) × List Char)
  | 0, _ => none
  | fuel+1, cs =>
    match skipWsJson cs with
    | '"' :: rest =>
      match parseStrBody rest with
      | none => none
      | some (k, rest2) =>
        match skipWsJson rest2 with
        | ':' :: rest3 =>
          match parseVal fuel rest3 with
          | none => none
          | some (v, rest4) =>
            match skipWsJson rest4 with
            | ',' :: r => (parseObjItems fuel r).map (fun p => ((k, v) :: p.1, p.2))
            | '\x7d' :: r => some ([(k, v)], r)
            | _ => none
        | _ => none
    | _ => none

end

/-- Model of the platform `JSON.parse` over the fragment above.  `Except.error`
models a thrown `SyntaxError`; in particular `jsonParse "\x7b"` (an opening
brace with no members) errors, as `JSON.parse` does. -/
def jsonParse (s : String) : Except String Json :=
  match parseVal (s.data.length + 1) s.data with
  | none => Except.error "SyntaxError"
  | some (v, rest) =>
    if (skipWsJson rest).isEmpty then Except.ok v
    else Except.error "SyntaxError"

/-- Model of `loadFromStorage` (`app.js` lines 8-11):
`const stored = localStorage.getItem('fulfillments'); return stored ?
JSON.parse(stored) : []`.  `none` models an absent key; an empty stored string
is falsy in JavaScript, hence also yields `[]`.  `Except.error` models an
exception escaping the method (the source has no try/catch around
`JSON.parse`). -/
def loadFromStorage (stored : Option String) : Except String Json :=
  match stored with
  | none => Except.ok (Json.arr [])
  | some s => if s.isEmpty then Except.ok (Json.arr []) else jsonParse s

/-- `updateFirst` keeps the first match first: when `g` preserves the
predicate, searching the rewritten list finds the rewritten record. -/
theorem find?_updateFirst (p : α → Bool) (g : α → α) (l : List α)
    (hpres : ∀ a, p a = true → p (g a) = true) :
    (updateFirst p g l).find? p = (l.find? p).map g := by
  induction l with
  | nil => rfl
  | cons x xs ih =>
    by_cases hx : p x = true
    · simp [updateFirst, hx, List.find?_cons_of_pos, hpres x hx]
    · have hx' : p x = false := by simpa using hx
      simp [updateFirst, hx', List.find?_cons_of_neg, ih]

/-- Every element of `updateFirst p g l` is either an untouched element of `l`
or the image under `g` of the first match of `p` in `l`. -/
theorem mem_updateFirst_of_find? (p : α → Bool) (g : α → α) {l : List α} {f y : α}
    (hfind : l.find? p = some f) (hy : y ∈ updateFirst p g l) : y ∈ l ∨ y = g f := by
  induction l with
  | nil => cases hy
  | cons x xs ih =>
    by_cases hx : p x = true
    · rw [List.find?_cons_of_pos _ hx] at hfind
      cases hfind
      rw [updateFirst, if_pos hx] at hy
      rcases List.mem_cons.mp hy with h | h
      · exact Or.inr h
      · exact Or.inl (List.mem_cons_of_mem _ h)
    · have hx' : p x = false := by simpa using hx
      rw [List.find?_cons_of_neg _ (by simp [hx'])] at hfind
      rw [updateFirst, if_neg (by simp [hx'])] at hy
      rcases List.mem_cons.mp hy with h | h
      · exact Or.inl (h ▸ List.mem_cons_self x xs)
      · rcases ih hfind h with h' | h'
        · exact Or.inl (List.mem_cons_of_mem _ h')
        · exact Or.inr h'

/-- Consistency of `status` with the two consumed flags, as stated by the
spec: `transferTokenConsumed` (`qrCodeUsed`) implies in-transit or completed,
and `secretConsumed` (`passwordUsed`) implies completed. -/
def flagsConsistentB (f : Fulfillment) : Bool :=
  (!f.qrCodeUsed || (f.status == "in-transit" || f.status == "completed")) &&
  (!f.passwordUsed || f.status == "completed")

/-- States reachable from a fresh store by any sequence of the five repository
operations, with arbitrary arguments and environment values.  The `hash`
parameter is the fixed digest function the store was built with. -/
inductive Reachable (hash : String → String) : Store → Prop
  | init : Reachable hash initialStore
  | create (s : Store) (data : CreateData) (idTime : Nat) (idRnd : String)
      (randFloor : Nat) (nowA nowB : String) : Reachable hash s →
      Reachable hash (createFulfillment hash s data idTime idRnd randFloor nowA nowB).2.2
  | qr (s : Store) (id now : String) : Reachable hash s →
      Reachable hash (updateStatusViaQR s id now).2
  | collect (s : Store) (id pwd now : String) : Reachable hash s →
      Reachable hash (validateAndCollect hash s id pwd now).2
  | advance (s : Store) (id ns now : String) : Reachable hash s →
      Reachable hash (updateStatus s id ns now)
  | del (s : Store) (id : String) : Reachable hash s →
      Reachable hash (deleteFulfillment s id)

/-- States reachable using only the checkpoint operations, creation and
deletion — i.e. without the unchecked `updateStatus` override. -/
inductive ReachableChecked (hash : String → String) : Store → Prop
  | init : ReachableChecked hash initialStore
  | create (s : Store) (data : CreateData) (idTime : Nat) (idRnd : String)
      (randFloor : Nat) (nowA nowB : String) : ReachableChecked hash s →
      ReachableChecked hash (createFulfillment hash s data idTime idRnd randFloor nowA nowB).2.2
  | qr (s : Store) (id now : String) : ReachableChecked hash s →
      ReachableChecked hash (updateStatusViaQR s id now).2
  | collect (s : Store) (id pwd now : String) : ReachableChecked hash s →
      ReachableChecked hash (validateAndCollect hash s id pwd now).2
  | del (s : Store) (id : String) : ReachableChecked hash s →
      ReachableChecked hash (deleteFulfillment s id)

/-- C1 (amended): in every state reachable by createFulfillment,
updateStatusViaQR, validateAndCollect and deleteFulfillment — i.e. every
operation except the unchecked updateStatus override — every record satisfies
the flag/status consistency invariant: qrCodeUsed implies status is in-transit
or completed, and passwordUsed implies status is completed. -/
theorem c1_flags_invariant_checked_ops (hash : String → String) (s : Store)
    (h : ReachableChecked hash s) : s.fulfillments.all flagsConsistentB = true := by
  induction h with
  | init => rfl
  | create s data idTime idRnd randFloor nowA nowB _ ih =>
    rw [List.all_eq_true] at ih ⊢
    intro y hy
    simp only [createFulfillment, notify, saveToStorage, List.mem_cons] at hy
    rcases hy with rfl | hmem
    · rfl
    · exact ih y hmem
  | qr s id now _ ih =>
    rcases hfind : s.fulfillments.find? (fun f => f.id == id) with _ | f
    · simpa [updateStatusViaQR, hfind] using ih
    · by_cases hq : f.qrCodeUsed = true
      · simpa [updateStatusViaQR, hfind, hq] using ih
      · have hq' : f.qrCodeUsed = false := by simpa using hq
        by_cases hst : f.status = "pending"
        · rw [List.all_eq_true]
          intro y hy
          simp only [updateStatusViaQR, hfind, hq', hst, notify, saveToStorage,
            bne_self_eq_false, Bool.false_eq_true, if_false] at hy
          rcases mem_updateFirst_of_find? _ _ hfind hy with hmem | rfl
          · exact List.all_eq_true.mp ih y hmem
          · have hfmem := List.mem_of_find?_eq_some hfind
            have hf := List.all_eq_true.mp ih f hfmem
            have hpu : f.passwordUsed = false := by
              by_contra hc
              have hc' : f.passwordUsed = true := by simpa using hc
              simp [flagsConsistentB, hc', hst] at hf
            simp [flagsConsistentB, dropOffMut, hpu]
        · have hbne : (f.status != "pending") = true := by simpa [bne] using hst
          simpa [updateStatusViaQR, hfind, hq', hbne] using ih
  | collect s id pwd now _ ih =>
    rcases hfind : s.fulfillments.find? (fun f => f.id == id) with _ | f
    · simpa [validateAndCollect, hfind] using ih
    · by_cases hp : f.passwordUsed = true
      · simpa [validateAndCollect, hfind, hp] using ih
      · have hp' : f.passwordUsed = false := by simpa using hp
        by_cases hst : f.status = "in-transit"
        · by_cases hpw : hash pwd = f.passwordHash
          · rw [List.all_eq_true]
            intro y hy
            simp only [validateAndCollect, hfind, hp', hst, hpw, notify, saveToStorage,
              bne_self_eq_false, Bool.false_eq_true, if_false] at hy
            rcases mem_updateFirst_of_find? _ _ hfind hy with hmem | rfl
            · exact List.all_eq_true.mp ih y hmem
            · simp [flagsConsistentB, collectMut]
          · have hbne : (hash pwd != f.passwordHash) = true := by simpa [bne] using hpw
            simpa [validateAndCollect, hfind, hp', hst, hbne] using ih
        · have hbne : (f.status != "in-transit") = true := by simpa [bne] using hst
          simpa [validateAndCollect, hfind, hp', hbne] using ih
  | del s id _ ih =>
    rw [List.all_eq_true]
    intro y hy
    simp only [deleteFulfillment, notify, saveToStorage, List.mem_filter] at hy
    exact List.all_eq_true.mp ih y hy.1

/-- The store after create, confirmDropOff, confirmCollection (with the
correct secret) and then the unchecked override back to in-transit.  The
digest function is instantiated with the identity; the trace only compares
the digest of the same string with itself, so it succeeds for every digest
function, in particular for SHA-256. -/
def c1CexStore : Store :=
  updateStatus
    (validateAndCollect (fun s => s)
      (updateStatusViaQR
        (createFulfillment (fun s => s) initialStore
          { itemName := "Laptop", personA := "Alice", personB := "Bob", personC := "Carol" }
          0 "aaaaa" 0 "T0" "T0").2.2
        "FUL-0-AAAAA" "T1").2
      "FUL-0-AAAAA" "100000" "T2").2
    "FUL-0-AAAAA" "in-transit" "T3"

/-- C1 (counterexample to the claim as stated): a state reachable by a
sequence of the five repository operations — create, confirmDropOff,
confirmCollection, then updateStatus(id, in-transit) — whose record has
passwordUsed = true but status ≠ completed, violating the claimed invariant. -/
theorem c1_flags_invariant_counterexample :
    Reachable (fun s => s) c1CexStore ∧
      c1CexStore.fulfillments.all flagsConsistentB = false := by
  constructor
  · exact Reachable.advance _ _ _ _
      (Reachable.collect _ _ _ _
        (Reachable.qr _ _ _
          (Reachable.create _ _ _ _ _ _ _ Reachable.init)))
  · decide

/-- A concrete store reachable without updateStatus, for instantiating the
amended C1 invariant. -/
def c1WitnessStore : Store :=
  (updateStatusViaQR
    (createFulfillment (fun s => s) initialStore
      { itemName := "Laptop", personA := "Alice", personB := "Bob", personC := "Carol" }
      0 "aaaaa" 0 "T0" "T0").2.2
    "FUL-0-AAAAA" "T1").2

/-- C1 witness: the amended invariant instantiated on a concrete
checked-operations trace. -/
theorem c1_flags_invariant_checked_ops_witness :
    ReachableChecked (fun s => s) c1WitnessStore ∧
      c1WitnessStore.fulfillments.all flagsConsistentB = true := by
  have htrace : ReachableChecked (fun s => s) c1WitnessStore :=
    ReachableChecked.qr _ _ _
      (ReachableChecked.create _ _ _ _ _ _ _ ReachableChecked.init)
  exact ⟨htrace, c1_flags_invariant_checked_ops _ _ htrace⟩

/-- C2: on a record whose first match for `id` is pending with an unconsumed
transfer token (and which has a dropped-off timeline entry, as every record
built by createFulfillment does), confirmDropOff succeeds, sets status to
in-transit and qrCodeUsed to true, marks the dropped-off stage completed with
a non-null timestamp, and any subsequent call with the same id fails with the
TokenAlreadyUsed error ("QR code has already been used") and leaves the store
unchanged, so every later retry keeps failing identically. -/
theorem c2_dropoff_exactly_once (s : Store) (id now now2 : String) (f : Fulfillment)
    (hfind : s.fulfillments.find? (fun x => x.id == id) = some f)
    (hp : f.status = "pending") (hq : f.qrCodeUsed = false)
    (hstage : (f.timeline.find? (fun t => t.stage == "dropped-off")).isSome = true) :
    (updateStatusViaQR s id now).1.success = true ∧
    (updateStatusViaQR s id now).1.fulfillment = some (dropOffMut now f) ∧
    (dropOffMut now f).status = "in-transit" ∧
    (dropOffMut now f).qrCodeUsed = true ∧
    (∃ st, (dropOffMut now f).timeline.find? (fun t => t.stage == "dropped-off") = some st ∧
      st.completed = true ∧ st.timestamp = some now) ∧
    updateStatusViaQR (updateStatusViaQR s id now).2 id now2 =
      ({ success := false, message := "QR code has already been used", fulfillment := none },
        (updateStatusViaQR s id now).2) := by
  have hbne : (f.status != "pending") = false := by simp [hp]
  have hres : updateStatusViaQR s id now =
      ({ success := true, message := "Item receipt confirmed!",
         fulfillment := some (dropOffMut now f) },
        notify (saveToStorage
          { s with fulfillments :=
              updateFirst (fun x => x.id == id) (dropOffMut now) s.fulfillments })) := by
    simp [updateStatusViaQR, hfind, hq, hbne]
  obtain ⟨st0, hst0⟩ := Option.isSome_iff_exists.mp hstage
  have hfind2 : (updateFirst (fun x => x.id == id) (dropOffMut now) s.fulfillments).find?
      (fun x => x.id == id) = some (dropOffMut now f) := by
    rw [find?_updateFirst (fun x => x.id == id) (dropOffMut now) s.fulfillments
      (fun a ha => ha), hfind]
    rfl
  refine ⟨by rw [hres], by rw [hres], rfl, rfl, ?_, ?_⟩
  · refine ⟨{ st0 with completed := true, timestamp := some now }, ?_, rfl, rfl⟩
    show (markStage "dropped-off" now f.timeline).find? (fun t => t.stage == "dropped-off") = _
    rw [markStage, find?_updateFirst (fun t => t.stage == "dropped-off")
      (fun t => { t with completed := true, timestamp := some now }) f.timeline
      (fun a ha => ha), hst0]
    rfl
  · rw [hres]
    simp [updateStatusViaQR, notify, saveToStorage, hfind2, dropOffMut]

/-- C2 witness: a concrete pending record with an unconsumed token. -/
def c2Record : Fulfillment :=
  { id := "X", itemName := "Book", personA := "A", personB := "B", personC := "C",
    status := "pending", qrCodeUsed := false, passwordHash := "H", passwordUsed := false,
    createdAt := "T0",
    timeline :=
      [ { stage := "created", title := "t1", description := "d1",
          timestamp := some "T0", completed := true },
        { stage := "dropped-off", title := "t2", description := "d2",
          timestamp := none, completed := false },
        { stage := "collected", title := "t3", description := "d3",
          timestamp := none, completed := false } ] }

/-- C2 witness store. -/
def c2Store : Store :=
  { fulfillments := [c2Record], storage := none, notifications := [] }

/-- C2 instantiated on a concrete store. -/
theorem c2_dropoff_exactly_once_witness :
    (c2Store.fulfillments.find? (fun x => x.id == "X") = some c2Record ∧
      c2Record.status = "pending" ∧ c2Record.qrCodeUsed = false ∧
      (c2Record.timeline.find? (fun t => t.stage == "dropped-off")).isSome = true) ∧
    ((updateStatusViaQR c2Store "X" "T1").1.success = true ∧
      (updateStatusViaQR c2Store "X" "T1").1.fulfillment = some (dropOffMut "T1" c2Record) ∧
      (dropOffMut "T1" c2Record).status = "in-transit" ∧
      (dropOffMut "T1" c2Record).qrCodeUsed = true ∧
      (∃ st, (dropOffMut "T1" c2Record).timeline.find? (fun t => t.stage == "dropped-off") =
          some st ∧ st.completed = true ∧ st.timestamp = some "T1") ∧
      updateStatusViaQR (updateStatusViaQR c2Store "X" "T1").2 "X" "T2" =
        ({ success := false, message := "QR code has already been used", fulfillment := none },
          (updateStatusViaQR c2Store "X" "T1").2)) :=
  ⟨⟨by decide, by decide, by decide, by decide⟩,
    c2_dropoff_exactly_once c2Store "X" "T1" "T2" c2Record
      (by decide) (by decide) (by decide) (by decide)⟩

/-- C3: on a record whose first match for `id` is in-transit with an
unconsumed secret, confirmCollection with a secret whose digest differs from
the stored hash fails with the SecretMismatch error ("Incorrect password")
and returns the store completely unchanged — collection, storage cell and
notification log included. -/
theorem c3_secret_mismatch_no_mutation (hash : String → String) (s : Store)
    (id pwd now : String) (f : Fulfillment)
    (hfind : s.fulfillments.find? (fun x => x.id == id) = some f)
    (hpu : f.passwordUsed = false) (hst : f.status = "in-transit")
    (hne : hash pwd ≠ f.passwordHash) :
    validateAndCollect hash s id pwd now =
      ({ success := false, message := "Incorrect password", fulfillment := none }, s) := by
  have hb1 : (f.status != "in-transit") = false := by simp [hst]
  have hb2 : (hash pwd != f.passwordHash) = true := by simpa [bne] using hne
  simp [validateAndCollect, hfind, hpu, hb1, hb2]

/-- C3 witness record: in-transit, secret unconsumed. -/
def c3Record : Fulfillment :=
  { id := "X", itemName := "Book", personA := "A", personB := "B", personC := "C",
    status := "in-transit", qrCodeUsed := true, passwordHash := "100000",
    passwordUsed := false, createdAt := "T0", timeline := [] }

/-- C3 witness store. -/
def c3Store : Store :=
  { fulfillments := [c3Record], storage := none, notifications := [] }

/-- C3 instantiated: the identity digest of "999999" differs from the stored
hash "100000", so the call fails and the store is untouched. -/
theorem c3_secret_mismatch_no_mutation_witness :
    (c3Store.fulfillments.find? (fun x => x.id == "X") = some c3Record ∧
      c3Record.passwordUsed = false ∧ c3Record.status = "in-transit" ∧
      (fun p => p) "999999" ≠ c3Record.passwordHash) ∧
    validateAndCollect (fun p => p) c3Store "X" "999999" "T1" =
      ({ success := false, message := "Incorrect password", fulfillment := none }, c3Store) :=
  ⟨⟨by decide, by decide, by decide, by decide⟩,
    c3_secret_mismatch_no_mutation (fun p => p) c3Store "X" "999999" "T1" c3Record
      (by decide) (by decide) (by decide) (by decide)⟩

/-- C4: on a record whose first match for `id` is still pending (drop-off not
yet confirmed) with an unconsumed secret, confirmCollection with any supplied
secret fails with the InvalidState error ("Item has not been dropped off
yet") before the digest is even computed, and returns the store unchanged, so
the status remains pending. -/
theorem c4_collect_before_dropoff_invalid_state (hash : String → String) (s : Store)
    (id pwd now : String) (f : Fulfillment)
    (hfind : s.fulfillments.find? (fun x => x.id == id) = some f)
    (hpu : f.passwordUsed = false) (hst : f.status = "pending") :
    validateAndCollect hash s id pwd now =
      ({ success := false, message := "Item has not been dropped off yet", fulfillment := none },
        s) ∧
    ∃ g, s.fulfillments.find? (fun x => x.id == id) = some g ∧ g.status = "pending" := by
  have hb1 : (f.status != "in-transit") = true := by simp [hst]
  exact ⟨by simp [validateAndCollect, hfind, hpu, hb1], f, hfind, hst⟩

/-- C4 witness record: pending, secret unconsumed. -/
def c4Record : Fulfillment :=
  { id := "X", itemName := "Book", personA := "A", personB := "B", personC := "C",
    status := "pending", qrCodeUsed := false, passwordHash := "100000",
    passwordUsed := false, createdAt := "T0", timeline := [] }

/-- C4 witness store. -/
def c4Store : Store :=
  { fulfillments := [c4Record], storage := none, notifications := [] }

/-- C4 instantiated: collecting before drop-off fails with InvalidState even
with the correct secret, and the record stays pending. -/
theorem c4_collect_before_dropoff_invalid_state_witness :
    (c4Store.fulfillments.find? (fun x => x.id == "X") = some c4Record ∧
      c4Record.passwordUsed = false ∧ c4Record.status = "pending") ∧
    (validateAndCollect (fun p => p) c4Store "X" "100000" "T1" =
      ({ success := false, message := "Item has not been dropped off yet", fulfillment := none },
        c4Store) ∧
    ∃ g, c4Store.fulfillments.find? (fun x => x.id == "X") = some g ∧ g.status = "pending") :=
  ⟨⟨by decide, by decide, by decide⟩,
    c4_collect_before_dropoff_invalid_state (fun p => p) c4Store "X" "100000" "T1" c4Record
      (by decide) (by decide) (by decide)⟩

/-- A record with its stored digest blanked out: the rest of the record is
everything a reader of the persisted state sees besides the hash. -/
def eraseHash (f : Fulfillment) : Fulfillment :=
  { f with passwordHash := "" }

/-- C5: the digest of the returned plaintext secret equals the stored
passwordHash; apart from `passwordHash` the created record does not depend on
the drawn secret at all (so the plaintext is not stored in any field), and
the record placed in the collection is exactly the returned one. -/
theorem c5_secret_hash_relation (hash : String → String) (s : Store) (data : CreateData)
    (idTime : Nat) (idRnd : String) (randFloor : Nat) (nowA nowB : String) :
    hash (createFulfillment hash s data idTime idRnd randFloor nowA nowB).2.1 =
      (createFulfillment hash s data idTime idRnd randFloor nowA nowB).1.passwordHash ∧
    (∀ rf2 : Nat,
      eraseHash (createFulfillment hash s data idTime idRnd rf2 nowA nowB).1 =
        eraseHash (createFulfillment hash s data idTime idRnd randFloor nowA nowB).1) ∧
    (createFulfillment hash s data idTime idRnd randFloor nowA nowB).2.2.fulfillments =
      (createFulfillment hash s data idTime idRnd randFloor nowA nowB).1 :: s.fulfillments :=
  ⟨rfl, fun _ => rfl, rfl⟩

/-- C6: createFulfillment yields a pending record with both consumed flags
false, a three-stage timeline (created completed at the current time, the
other two incomplete with null timestamps), a secret that is the decimal
numeral of a number in 100000-999999 (hence six digits long), and pushes the
record at the head of the collection. -/
theorem c6_create_postconditions (hash : String → String) (s : Store) (data : CreateData)
    (idTime : Nat) (idRnd : String) (randFloor : Nat) (nowA nowB : String)
    (hrf : randFloor < 900000) :
    (createFulfillment hash s data idTime idRnd randFloor nowA nowB).1.status = "pending" ∧
    (createFulfillment hash s data idTime idRnd randFloor nowA nowB).1.qrCodeUsed = false ∧
    (createFulfillment hash s data idTime idRnd randFloor nowA nowB).1.passwordUsed = false ∧
    ((createFulfillment hash s data idTime idRnd randFloor nowA nowB).1.timeline.map
        (fun st => (st.stage, st.completed, st.timestamp))) =
      [("created", true, some nowB), ("dropped-off", false, none),
        ("collected", false, none)] ∧
    (∃ n : Nat, (createFulfillment hash s data idTime idRnd randFloor nowA nowB).2.1 =
      Nat.repr n ∧ 100000 ≤ n ∧ n ≤ 999999 ∧ (Nat.digits 10 n).length = 6) ∧
    (createFulfillment hash s data idTime idRnd randFloor nowA nowB).2.2.fulfillments =
      (createFulfillment hash s data idTime idRnd randFloor nowA nowB).1 :: s.fulfillments := by
  refine ⟨rfl, rfl, rfl, rfl, ⟨100000 + randFloor, rfl, by omega, by omega, ?_⟩, rfl⟩
  rw [Nat.digits_len 10 _ (by omega) (by omega)]
  have hlog : Nat.log 10 (100000 + randFloor) = 5 :=
    Nat.log_eq_of_pow_le_of_lt_pow (by norm_num) (by norm_num; omega)
  omega

/-- C6 witness data. -/
def c6Data : CreateData :=
  { itemName := "Laptop", personA := "Alice", personB := "Bob", personC := "Carol" }

/-- C6 instantiated at a concrete creation. -/
theorem c6_create_postconditions_witness :
    0 < 900000 ∧
    ((createFulfillment (fun p => p) initialStore c6Data 0 "aaaaa" 0 "T0" "T1").1.status =
        "pending" ∧
    (createFulfillment (fun p => p) initialStore c6Data 0 "aaaaa" 0 "T0" "T1").1.qrCodeUsed =
        false ∧
    (createFulfillment (fun p => p) initialStore c6Data 0 "aaaaa" 0 "T0" "T1").1.passwordUsed =
        false ∧
    ((createFulfillment (fun p => p) initialStore c6Data 0 "aaaaa" 0 "T0" "T1").1.timeline.map
        (fun st => (st.stage, st.completed, st.timestamp))) =
      [("created", true, some "T1"), ("dropped-off", false, none),
        ("collected", false, none)] ∧
    (∃ n : Nat, (createFulfillment (fun p => p) initialStore c6Data 0 "aaaaa" 0 "T0" "T1").2.1 =
      Nat.repr n ∧ 100000 ≤ n ∧ n ≤ 999999 ∧ (Nat.digits 10 n).length = 6) ∧
    (createFulfillment (fun p => p) initialStore c6Data 0 "aaaaa" 0 "T0" "T1").2.2.fulfillments =
      (createFulfillment (fun p => p) initialStore c6Data 0 "aaaaa" 0 "T0" "T1").1 ::
        initialStore.fulfillments) :=
  ⟨by decide,
    c6_create_postconditions (fun p => p) initialStore c6Data 0 "aaaaa" 0 "T0" "T1" (by decide)⟩

/-- C7: evaluation of `loadFromStorage` at the claimed inputs.  An absent key
yields the empty collection, but malformed persisted data makes `JSON.parse`
throw (modelled as `Except.error`), so loading crashes instead of returning
an empty collection — the source has no try/catch around `JSON.parse`
(`app.js` lines 8-11). -/
theorem c7_load_malformed_crashes :
    loadFromStorage none = Except.ok (Json.arr []) ∧
    loadFromStorage (some "\x7b") = Except.error "SyntaxError" ∧
    loadFromStorage (some "not json") = Except.error "SyntaxError" :=
  ⟨rfl, rfl, rfl⟩

/-- C8: for an existing record (first match on `id`) and an arbitrary target
status, updateStatus sets the status field, rewrites the timeline only when
the new status is in-transit (dropped-off stage) or completed (collected
stage), and leaves both consumed flags and every other record field
unchanged. -/
theorem c8_update_status_frame (s : Store) (id ns now : String) (f : Fulfillment)
    (hfind : s.fulfillments.find? (fun x => x.id == id) = some f) :
    ∃ f2, (updateStatus s id ns now).fulfillments.find? (fun x => x.id == id) = some f2 ∧
      f2.status = ns ∧
      f2.qrCodeUsed = f.qrCodeUsed ∧ f2.passwordUsed = f.passwordUsed ∧
      f2.id = f.id ∧ f2.itemName = f.itemName ∧ f2.personA = f.personA ∧
      f2.personB = f.personB ∧ f2.personC = f.personC ∧
      f2.passwordHash = f.passwordHash ∧ f2.createdAt = f.createdAt ∧
      f2.timeline = (if ns == "in-transit" then markStage "dropped-off" now f.timeline
        else if ns == "completed" then markStage "collected" now f.timeline
        else f.timeline) := by
  have hlist : (updateStatus s id ns now).fulfillments =
      updateFirst (fun x => x.id == id) (advanceMut ns now) s.fulfillments := by
    simp [updateStatus, hfind, notify, saveToStorage]
  refine ⟨advanceMut ns now f, ?_, rfl, rfl, rfl, rfl, rfl, rfl, rfl, rfl, rfl, rfl, rfl⟩
  rw [hlist, find?_updateFirst (fun x => x.id == id) (advanceMut ns now)
    s.fulfillments (fun a ha => ha), hfind]
  rfl

/-- C8 witness: the override applied with target status completed on a
concrete in-transit record. -/
theorem c8_update_status_frame_witness :
    (c3Store.fulfillments.find? (fun x => x.id == "X") = some c3Record) ∧
    (∃ f2, (updateStatus c3Store "X" "completed" "T9").fulfillments.find?
        (fun x => x.id == "X") = some f2 ∧
      f2.status = "completed" ∧
      f2.qrCodeUsed = c3Record.qrCodeUsed ∧ f2.passwordUsed = c3Record.passwordUsed ∧
      f2.id = c3Record.id ∧ f2.itemName = c3Record.itemName ∧ f2.personA = c3Record.personA ∧
      f2.personB = c3Record.personB ∧ f2.personC = c3Record.personC ∧
      f2.passwordHash = c3Record.passwordHash ∧ f2.createdAt = c3Record.createdAt ∧
      f2.timeline = (if "completed" == "in-transit" then markStage "dropped-off" "T9" c3Record.timeline
        else if "completed" == "completed" then markStage "collected" "T9" c3Record.timeline
        else c3Record.timeline)) :=
  ⟨by decide, c8_update_status_frame c3Store "X" "completed" "T9" c3Record (by decide)⟩

/-- C10: when no record matches `id`, updateStatus returns the store
untouched — same collection, same storage cell, same notification log, hence
no persistence write and no subscriber notification, and no error value
(the source returns `undefined`) — whereas the drop-off checkpoint returns an
explicit NotFound failure ("Fulfillment not found") for the same id. -/
theorem c10_update_status_missing_id_noop (s : Store) (id ns now now2 : String)
    (hfind : s.fulfillments.find? (fun x => x.id == id) = none) :
    updateStatus s id ns now = s ∧
    updateStatusViaQR s id now2 =
      ({ success := false, message := "Fulfillment not found", fulfillment := none }, s) := by
  constructor
  · simp [updateStatus, hfind]
  · simp [updateStatusViaQR, hfind]

/-- C10 witness: a store holding one record with a different id. -/
theorem c10_update_status_missing_id_noop_witness :
    (c4Store.fulfillments.find? (fun x => x.id == "Y") = none) ∧
    (updateStatus c4Store "Y" "completed" "T1" = c4Store ∧
      updateStatusViaQR c4Store "Y" "T2" =
        ({ success := false, message := "Fulfillment not found", fulfillment := none },
          c4Store)) :=
  ⟨by decide, c10_update_status_missing_id_noop c4Store "Y" "completed" "T1" "T2" (by decide)⟩

/-- Char.ofNat applied to a valid scalar value round-trips through toNat. -/
theorem toNat_char_ofNat (n : Nat) (hv : n.isValidChar) : (Char.ofNat n).toNat = n := by
  rw [Char.ofNat, dif_pos hv]
  rfl

/-- Lowercase base-36 alphabet: decimal digits and lowercase letters, the
characters `Number.prototype.toString(36)` can produce. -/
def isB36Lower (c : Char) : Bool :=
  (48 ≤ c.toNat && c.toNat ≤ 57) || (97 ≤ c.toNat && c.toNat ≤ 122)

/-- The characters that can occur in a generated id: decimal digits,
uppercase letters, and the hyphen. -/
def isIdUpper (c : Char) : Bool :=
  (48 ≤ c.toNat && c.toNat ≤ 57) || (65 ≤ c.toNat && c.toNat ≤ 90) || c.toNat == 45

/-- Each base-36 digit character is a decimal digit or lowercase letter. -/
theorem base36DigitChar_isB36Lower (d : Nat) (hd : d < 36) :
    isB36Lower (base36DigitChar d) = true := by
  unfold base36DigitChar
  by_cases h : d < 10
  · rw [if_pos h]
    have ht := toNat_char_ofNat (48 + d) (Or.inl (by omega))
    simp only [isB36Lower, ht]
    simp
    omega
  · rw [if_neg h]
    have ht := toNat_char_ofNat (87 + d) (Or.inl (by omega))
    simp only [isB36Lower, ht]
    simp
    omega

/-- All characters of a base-36 numeral are in the lowercase base-36
alphabet. -/
theorem natToBase36Aux_chars (fuel : Nat) : ∀ (n : Nat) (acc : List Char),
    (∀ c ∈ acc, isB36Lower c = true) →
    ∀ c ∈ natToBase36Aux fuel n acc, isB36Lower c = true := by
  induction fuel with
  | zero => intro n acc hacc; exact hacc
  | succ fuel ih =>
    intro n acc hacc c hc
    rw [natToBase36Aux] at hc
    by_cases h : n < 36
    · rw [if_pos h] at hc
      rcases List.mem_cons.mp hc with rfl | hmem
      · exact base36DigitChar_isB36Lower n h
      · exact hacc c hmem
    · rw [if_neg h] at hc
      refine ih (n / 36) (base36DigitChar (n % 36) :: acc) ?_ c hc
      intro c' hc'
      rcases List.mem_cons.mp hc' with rfl | hmem
      · exact base36DigitChar_isB36Lower _ (Nat.mod_lt _ (by omega))
      · exact hacc c' hmem

/-- Uppercasing a lowercase base-36 character lands in the id alphabet. -/
theorem jsUpperChar_isIdUpper (c : Char) (h : isB36Lower c = true) :
    isIdUpper (jsUpperChar c) = true := by
  simp only [isB36Lower, Bool.or_eq_true, Bool.and_eq_true, decide_eq_true_eq] at h
  unfold jsUpperChar
  by_cases hl : 97 ≤ c.toNat ∧ c.toNat ≤ 122
  · rw [if_pos hl]
    have ht := toNat_char_ofNat (c.toNat - 32) (Or.inl (by omega))
    simp only [isIdUpper, ht]
    simp
    omega
  · rw [if_neg hl]
    simp only [isIdUpper]
    simp
    omega

/-- Characters of the id alphabet are fixed by uppercasing and are not
whitespace. -/
theorem isIdUpper_fixed (c : Char) (h : isIdUpper c = true) :
    jsUpperChar c = c ∧ isJsWs c = false := by
  simp only [isIdUpper, Bool.or_eq_true, Bool.and_eq_true, decide_eq_true_eq,
    beq_iff_eq] at h
  constructor
  · unfold jsUpperChar
    rw [if_neg (by omega)]
  · simp only [isJsWs]
    simp
    omega

/-- Mapping a function that fixes every element of a list is the identity. -/
theorem map_eq_self_of_fixed (g : α → α) (l : List α) (h : ∀ c ∈ l, g c = c) :
    l.map g = l := by
  induction l with
  | nil => rfl
  | cons x xs ih =>
    rw [List.map_cons, h x (List.mem_cons_self x xs),
      ih (fun c hc => h c (List.mem_cons_of_mem _ hc))]

/-- dropWhile is the identity on a list none of whose elements satisfy the
predicate. -/
theorem dropWhile_eq_self_of_neg (p : α → Bool) (l : List α)
    (h : ∀ c ∈ l, p c = false) : l.dropWhile p = l := by
  cases l with
  | nil => rfl
  | cons x xs =>
    rw [List.dropWhile_cons, h x (List.mem_cons_self x xs)]
    simp

/-- Trimming fixes a string with no whitespace characters. -/
theorem jsTrim_fixed (l : List Char) (h : ∀ c ∈ l, isJsWs c = false) :
    jsTrim (String.mk l) = String.mk l := by
  have h1 : l.dropWhile isJsWs = l := dropWhile_eq_self_of_neg _ _ h
  have h2 : l.reverse.dropWhile isJsWs = l.reverse :=
    dropWhile_eq_self_of_neg _ _ (fun c hc => h c (List.mem_reverse.mp hc))
  show String.mk (((String.mk l).data.dropWhile isJsWs).reverse.dropWhile isJsWs).reverse =
    String.mk l
  rw [show (String.mk l).data = l from rfl, h1, h2, List.reverse_reverse]

/-- Uppercasing fixes a string all of whose characters it fixes. -/
theorem jsToUpper_fixed (l : List Char) (h : ∀ c ∈ l, jsUpperChar c = c) :
    jsToUpper (String.mk l) = String.mk l := by
  show String.mk ((String.mk l).data.map jsUpperChar) = String.mk l
  rw [show (String.mk l).data = l from rfl, map_eq_self_of_fixed _ _ h]

/-- Every character of a generated id is a digit, an uppercase letter or a
hyphen, provided the five random base-36 digits are lowercase alphanumerics
(which `Math.random().toString(36).substr(2, 5)` guarantees). -/
theorem generateId_chars (t : Nat) (rnd : String)
    (hrnd : ∀ c ∈ rnd.data, isB36Lower c = true) :
    ∀ c ∈ (generateId t rnd).data, isIdUpper c = true := by
  intro c hc
  unfold generateId at hc
  rw [String.data_append, String.data_append, String.data_append] at hc
  simp only [List.mem_append] at hc
  rcases hc with ((h1 | h2) | h3) | h4
  · have h1' : c ∈ ['F', 'U', 'L', '-'] := h1
    rcases List.mem_cons.mp h1' with rfl | h1'
    · decide
    rcases List.mem_cons.mp h1' with rfl | h1'
    · decide
    rcases List.mem_cons.mp h1' with rfl | h1'
    · decide
    rcases List.mem_cons.mp h1' with rfl | h1'
    · decide
    · cases h1'
  · have h2' : c ∈ (natToBase36Aux (t + 1) t []).map jsUpperChar := h2
    obtain ⟨b, hb, rfl⟩ := List.mem_map.mp h2'
    exact jsUpperChar_isIdUpper b
      (natToBase36Aux_chars (t + 1) t [] (by intro x hx; cases hx) b hb)
  · have h3' : c ∈ ['-'] := h3
    rcases List.mem_cons.mp h3' with rfl | h3'
    · decide
    · cases h3'
  · obtain ⟨b, hb, rfl⟩ := List.mem_map.mp h4
    exact jsUpperChar_isIdUpper b (hrnd b hb)

/-- Normalisation applied by the scanner form to the presented token before
calling the drop-off checkpoint (`app.js` line 444):
`value.trim().toUpperCase()`. -/
def scannerNormalize (s : String) : String :=
  jsToUpper (jsTrim s)

/-- A generated id is already trimmed and uppercase, so the scanner
normalisation fixes it. -/
theorem generateId_normalized (t : Nat) (rnd : String)
    (hrnd : ∀ c ∈ rnd.data, isB36Lower c = true) :
    scannerNormalize (generateId t rnd) = generateId t rnd := by
  have hchars := generateId_chars t rnd hrnd
  have h1 : jsTrim (String.mk (generateId t rnd).data) = String.mk (generateId t rnd).data :=
    jsTrim_fixed _ (fun c hc => (isIdUpper_fixed c (hchars c hc)).2)
  have h2 : jsToUpper (String.mk (generateId t rnd).data) = String.mk (generateId t rnd).data :=
    jsToUpper_fixed _ (fun c hc => (isIdUpper_fixed c (hchars c hc)).1)
  calc scannerNormalize (generateId t rnd)
      = jsToUpper (jsTrim (String.mk (generateId t rnd).data)) := rfl
    _ = jsToUpper (String.mk (generateId t rnd).data) := by rw [h1]
    _ = String.mk (generateId t rnd).data := h2
    _ = generateId t rnd := rfl

/-- C9: the drop-off token input is matched case-insensitively and after
trimming.  The scanner form feeds `scannerNormalize input` to the checkpoint
(`app.js` lines 441-446); for any input that equals a generated record id up
to surrounding whitespace and letter case (formally: both normalise to the
same string), the checkpoint call is literally the same as the call on the
exact id — including when the exact id itself is presented. -/
theorem c9_scanner_input_normalization (s : Store) (t : Nat) (rnd : String)
    (hrnd : ∀ c ∈ rnd.data, isB36Lower c = true) (input now : String)
    (hinput : scannerNormalize input = scannerNormalize (generateId t rnd)) :
    updateStatusViaQR s (scannerNormalize input) now =
      updateStatusViaQR s (generateId t rnd) now ∧
    updateStatusViaQR s (scannerNormalize (generateId t rnd)) now =
      updateStatusViaQR s (generateId t rnd) now := by
  have hnorm := generateId_normalized t rnd hrnd
  exact ⟨by rw [hinput, hnorm], by rw [hnorm]⟩

/-- C9 witness: the id generated at time 0 with random digits "abc12" is
"FUL-0-ABC12"; the sloppy input with surrounding spaces and lowercase letters
drives the checkpoint exactly like the id itself (shown on the store holding
the freshly created record). -/
theorem c9_scanner_input_normalization_witness :
    ((∀ c ∈ "abc12".data, isB36Lower c = true) ∧
      scannerNormalize "  ful-0-abc12 " = scannerNormalize (generateId 0 "abc12")) ∧
    (updateStatusViaQR
        (createFulfillment (fun p => p) initialStore c6Data 0 "abc12" 0 "T0" "T0").2.2
        (scannerNormalize "  ful-0-abc12 ") "T1" =
      updateStatusViaQR
        (createFulfillment (fun p => p) initialStore c6Data 0 "abc12" 0 "T0" "T0").2.2
        (generateId 0 "abc12") "T1" ∧
    updateStatusViaQR
        (createFulfillment (fun p => p) initialStore c6Data 0 "abc12" 0 "T0" "T0").2.2
        (scannerNormalize (generateId 0 "abc12")) "T1" =
      updateStatusViaQR
        (createFulfillment (fun p => p) initialStore c6Data 0 "abc12" 0 "T0" "T0").2.2
        (generateId 0 "abc12") "T1") :=
  ⟨⟨by decide, by decide⟩,
    c9_scanner_input_normalization
      (createFulfillment (fun p => p) initialStore c6Data 0 "abc12" 0 "T0" "T0").2.2
      0 "abc12" (by decide) "  ful-0-abc12 " "T1" (by decide)⟩
